import Mathlib

/-!
Verification development for the CCFeeAgent repository.

The numeric core (`FeeCalculator` in `vc_enhanced_utils.py`) is embedded over
`ℚ`: Python float arithmetic on currency amounts is modelled by exact rational
arithmetic, and Python's `round(x, 2)` (round half to even) by `round2` below.
The entity-resolution layer (`adapters/excel_three_sheet_adapter.py`) is
embedded over typed row lists; the external `rapidfuzz` similarity scorers
(a third-party library, not part of this repository) are passed in as function
parameters.  A Python `raise ValueError` is modelled as an `Except.error`
result, and a Python `None` return as `Option.none`.
-/

/-- Round-half-to-even of a rational to an integer (the tie rule of Python's
builtin `round`). -/
def rhe (x : ℚ) : ℤ :=
  let f := ⌊x⌋
  let r := x - f
  if r < 1/2 then f
  else if 1/2 < r then f + 1
  else if f % 2 = 0 then f else f + 1

/-- Python `round(x, 2)`: round half to even at two decimal places. -/
def round2 (x : ℚ) : ℚ := (rhe (100 * x) : ℚ) / 100

/-- `math.ceil(amount * 100) / 100` from `FeeCalculator._apply_rounding`. -/
def roundUp2 (x : ℚ) : ℚ := (⌈100 * x⌉ : ℚ) / 100

/-- `math.floor(amount * 100) / 100` from `FeeCalculator._apply_rounding`. -/
def roundDown2 (x : ℚ) : ℚ := (⌊100 * x⌋ : ℚ) / 100

/-- `FeeCalculator._apply_rounding`: dispatch on the rounding rule string. -/
def applyRounding (amount : ℚ) (rounding_rule : String) : ℚ :=
  if rounding_rule = "banker" then round2 amount
  else if rounding_rule = "up" then roundUp2 amount
  else if rounding_rule = "down" then roundDown2 amount
  else round2 amount

/-- The fee structure dictionary used by the enhanced fee engine
(`FeeCalculator.DEFAULT_FEE_STRUCTURE` and its per-company overrides). -/
structure FeeStructure where
  upfront_fee_pct : ℚ
  amc_1_3_pct : ℚ
  amc_4_5_pct : ℚ
  performance_fee_pct : ℚ
  minimum_investment : ℚ
  maximum_investment : ℚ
  fee_cap : Option ℚ
  fee_floor : ℚ
  rounding_rule : String
  vat_rate : ℚ
  currency : String
deriving DecidableEq, Repr

/-- `FeeCalculator.DEFAULT_FEE_STRUCTURE` (EIS-compliant defaults). -/
def DEFAULT_FEE_STRUCTURE : FeeStructure :=
  { upfront_fee_pct := 1.5
    amc_1_3_pct := 2.0
    amc_4_5_pct := 1.5
    performance_fee_pct := 10.0
    minimum_investment := 1000
    maximum_investment := 1000000
    fee_cap := none
    fee_floor := 0
    rounding_rule := "banker"
    vat_rate := 20.0
    currency := "GBP" }

/-- The company-data fields read by `FeeCalculator._get_enhanced_fee_structure`
(sheet columns `Upfront Fee %`, `AMC 1–3 %`, `AMC 4–5 %`, `Perf Fee %`, and an
optional `vat_rate` override); `none` models an absent/None entry. -/
structure CompanyData where
  upfrontFeePct : Option ℚ
  amc13Pct : Option ℚ
  amc45Pct : Option ℚ
  perfFeePct : Option ℚ
  vatRate : Option ℚ
deriving DecidableEq, Repr

/-- `FeeCalculator._get_enhanced_fee_structure`: start from defaults and
override each mapped field present (and not None) in the company data. -/
def getEnhancedFeeStructure (company_data : Option CompanyData) : FeeStructure :=
  match company_data with
  | none => DEFAULT_FEE_STRUCTURE
  | some c =>
    { DEFAULT_FEE_STRUCTURE with
      upfront_fee_pct := c.upfrontFeePct.getD DEFAULT_FEE_STRUCTURE.upfront_fee_pct
      amc_1_3_pct := c.amc13Pct.getD DEFAULT_FEE_STRUCTURE.amc_1_3_pct
      amc_4_5_pct := c.amc45Pct.getD DEFAULT_FEE_STRUCTURE.amc_4_5_pct
      performance_fee_pct := c.perfFeePct.getD DEFAULT_FEE_STRUCTURE.performance_fee_pct
      vat_rate := c.vatRate.getD DEFAULT_FEE_STRUCTURE.vat_rate }

/-- The investor-data fields read by `FeeCalculator.calc_breakdown` and
`_apply_enhanced_investor_adjustments` (`tier`, `investor_type`,
`classification`); `none` models an absent key. -/
structure InvestorData where
  tier : Option String
  investor_type : Option String
  classification : Option String
deriving DecidableEq, Repr

/-- `FeeCalculator._apply_enhanced_investor_adjustments`: tier discounts. -/
def applyEnhancedInvestorAdjustments (fs : FeeStructure)
    (investor_data : Option InvestorData) : FeeStructure :=
  match investor_data with
  | none => fs
  | some d =>
    match d.tier with
    | none => fs
    | some tr =>
      let tier := tr.toUpper
      if tier = "PREMIUM" then
        { fs with upfront_fee_pct := fs.upfront_fee_pct * 0.8
                  amc_1_3_pct := fs.amc_1_3_pct * 0.9 }
      else if tier = "VIP" then
        { fs with upfront_fee_pct := fs.upfront_fee_pct * 0.5
                  amc_1_3_pct := fs.amc_1_3_pct * 0.8 }
      else fs

/-- Python truthiness-based `a or b` on optional strings
(`investor_data.get('investor_type') or investor_data.get('classification')`):
None and the empty string are falsy. -/
def pyOrStr (a b : Option String) : Option String :=
  match a with
  | some s => if s = "" then b else some s
  | none => b

/-- The raw investor-type string of `FeeCalculator.calc_breakdown`
(`str(investor_data.get('investor_type') or investor_data.get('classification')
or '').lower()`); an absent/empty `investor_data` dict yields `""`. -/
def rawInvestorType (investor_data : Option InvestorData) : String :=
  match investor_data with
  | none => ""
  | some d => ((pyOrStr d.investor_type d.classification).getD "").toLower

/-- The investor-type normalization of `FeeCalculator.calc_breakdown`:
anything other than exactly `retail`/`professional` becomes `professional`. -/
def determineInvestorType (investor_data : Option InvestorData) : String :=
  let investor_type := rawInvestorType investor_data
  if investor_type = "retail" ∨ investor_type = "professional" then investor_type
  else "professional"

/-- The `breakdown` dictionary of
`FeeCalculator._calculate_enhanced_gross_investment` (`applied_rates` and
`fee_breakdown` entries; the presentation-only `steps` strings are omitted). -/
structure FeeBreakdown where
  base_investment : ℚ
  investor_type : String
  upfront_pct_applied : ℚ
  amc_1_3_pct_applied : ℚ
  amc_4_5_pct_applied : ℚ
  vat_rate_pct_applied : ℚ
  amc_base : ℚ
  upfront_ex_vat : ℚ
  upfront_vat : ℚ
  upfront_total : ℚ
  amc_1_3_ex_vat : ℚ
  amc_1_3_vat : ℚ
  amc_1_3_total : ℚ
  amc_4_5_ex_vat : ℚ
  amc_4_5_vat : ℚ
  amc_4_5_total : ℚ
  performance : ℚ
  total_amount_required : ℚ
  total_amount_provided : Option ℚ
deriving DecidableEq, Repr

/-- The result dictionary of the enhanced gross/net calculators. -/
structure CalcOut where
  gross_investment : ℚ
  net_investment : ℚ
  upfront_fee : ℚ
  amc_1_3_fee : ℚ
  amc_4_5_fee : ℚ
  performance_fee : ℚ
  total_fees : ℚ
  total_transfer : ℚ
  method : String
  breakdown : FeeBreakdown
deriving DecidableEq, Repr

/-- `FeeCalculator._calculate_enhanced_gross_investment`. -/
def calculateEnhancedGrossInvestment (gross_amount : ℚ) (fs : FeeStructure)
    (investor_type : String) : CalcOut :=
  let vat_rate_pct := fs.vat_rate
  let upfront_pct := fs.upfront_fee_pct / 100
  let amc1_3_pct_per_year := fs.amc_1_3_pct / 100
  let amc1_3_pct_total := amc1_3_pct_per_year * 3
  let amc4_5_pct_per_year := fs.amc_4_5_pct / 100
  let amc4_5_pct_total := amc4_5_pct_per_year * 2
  let upfront_ex := applyRounding (gross_amount * upfront_pct) fs.rounding_rule
  let upfront_vat := applyRounding (upfront_ex * (vat_rate_pct / 100)) fs.rounding_rule
  let upfront_tot := applyRounding (upfront_ex + upfront_vat) fs.rounding_rule
  let amc_base :=
    if investor_type = "retail" then
      applyRounding (gross_amount - upfront_tot) fs.rounding_rule
    else gross_amount
  let amc1_3_ex := applyRounding (amc_base * amc1_3_pct_total) fs.rounding_rule
  let amc1_3_vat := applyRounding (amc1_3_ex * (vat_rate_pct / 100)) fs.rounding_rule
  let amc1_3_tot := applyRounding (amc1_3_ex + amc1_3_vat) fs.rounding_rule
  let amc4_5_ex := applyRounding (amc_base * amc4_5_pct_total) fs.rounding_rule
  let amc4_5_vat := applyRounding (amc4_5_ex * (vat_rate_pct / 100)) fs.rounding_rule
  let amc4_5_tot := applyRounding (amc4_5_ex + amc4_5_vat) fs.rounding_rule
  let performance_fee : ℚ := 0
  let immediate_fees_total := applyRounding (upfront_tot + amc1_3_tot) fs.rounding_rule
  let total_transfer := applyRounding (gross_amount + immediate_fees_total) fs.rounding_rule
  { gross_investment := gross_amount
    net_investment := gross_amount
    upfront_fee := upfront_ex
    amc_1_3_fee := amc1_3_ex
    amc_4_5_fee := amc4_5_ex
    performance_fee := performance_fee
    total_fees := immediate_fees_total
    total_transfer := total_transfer
    method := "gross_enhanced"
    breakdown :=
      { base_investment := gross_amount
        investor_type := investor_type
        upfront_pct_applied := fs.upfront_fee_pct
        amc_1_3_pct_applied := fs.amc_1_3_pct
        amc_4_5_pct_applied := fs.amc_4_5_pct
        vat_rate_pct_applied := fs.vat_rate
        amc_base := amc_base
        upfront_ex_vat := upfront_ex
        upfront_vat := upfront_vat
        upfront_total := upfront_tot
        amc_1_3_ex_vat := amc1_3_ex
        amc_1_3_vat := amc1_3_vat
        amc_1_3_total := amc1_3_tot
        amc_4_5_ex_vat := amc4_5_ex
        amc_4_5_vat := amc4_5_vat
        amc_4_5_total := amc4_5_tot
        performance := performance_fee
        total_amount_required := total_transfer
        total_amount_provided := none } }

/-- The closed-form inversion multiplier of
`FeeCalculator._calculate_enhanced_net_investment`
(`1 + u*t + a*t - u*a*t^2` for retail, `1 + t*(u + a)` for professional). -/
def netMultiplier (fs : FeeStructure) (investor_type : String) : ℚ :=
  let t := 1 + fs.vat_rate / 100
  let upfront_pct := fs.upfront_fee_pct / 100
  let amc1_3_pct_total := fs.amc_1_3_pct * 3 / 100
  if investor_type = "retail" then
    1 + upfront_pct * t + amc1_3_pct_total * t - upfront_pct * amc1_3_pct_total * t ^ 2
  else
    1 + t * (upfront_pct + amc1_3_pct_total)

/-- `FeeCalculator._calculate_enhanced_net_investment`.  A zero multiplier
makes the Python float division raise `ZeroDivisionError`, modelled as
`none`. -/
def calculateEnhancedNetInvestment (net_amount : ℚ) (fs : FeeStructure)
    (investor_type : String) : Option CalcOut :=
  let multiplier := netMultiplier fs investor_type
  if multiplier = 0 then none
  else
    let gross_investment := applyRounding (net_amount / multiplier) fs.rounding_rule
    let gross_result := calculateEnhancedGrossInvestment gross_investment fs investor_type
    some { gross_result with
            total_transfer := applyRounding net_amount fs.rounding_rule
            method := "net_enhanced"
            breakdown := { gross_result.breakdown with
                           total_amount_provided := some net_amount } }

/-- The `audit_trail` dictionary of `FeeCalculator.calc_breakdown`
(the presentation-only `calculation_steps` strings are omitted). -/
structure AuditTrail where
  input_amount : ℚ
  investment_type : String
  fee_structure_applied : FeeStructure
  rounding_applied : String
  timestamp : String
deriving DecidableEq, Repr

/-- `FeeCalculator._create_reconciliation`: the two key sets produced for the
net and gross directions. -/
inductive Reconciliation where
  | netDir (total_provided fees_deducted investment_amount check_sum variance : ℚ)
  | grossDir (investment_amount fees_added total_required check_sum variance : ℚ)
deriving DecidableEq, Repr

/-- `FeeCalculator._create_reconciliation`. -/
def createReconciliation (result : CalcOut) (is_net : Bool) : Reconciliation :=
  if is_net then
    .netDir result.total_transfer result.total_fees result.gross_investment
      (result.total_transfer - result.total_fees)
      |result.total_transfer - result.total_fees - result.gross_investment|
  else
    .grossDir result.gross_investment result.total_fees result.total_transfer
      (result.gross_investment + result.total_fees)
      |result.gross_investment + result.total_fees - result.total_transfer|

/-- The audit-hash input of `FeeCalculator.calc_breakdown`
(`f"{amount}_{is_net}_{json.dumps(adjusted_structure, sort_keys=True)}"`;
the md5 truncation is a fixed deterministic function of this string, so the
hash is modelled by the serialized input itself — what matters for the claims
is exactly which inputs it depends on). -/
def calcHash (investment_amount : ℚ) (is_net_investment : Bool)
    (fs : FeeStructure) : String :=
  toString investment_amount ++ "_" ++
  (if is_net_investment then "True" else "False") ++ "_" ++
  toString fs.amc_1_3_pct ++ "|" ++ toString fs.amc_4_5_pct ++ "|" ++
  toString fs.currency ++ "|" ++ toString (fs.fee_cap.getD 0) ++ "|" ++
  toString fs.fee_floor ++ "|" ++ toString fs.maximum_investment ++ "|" ++
  toString fs.minimum_investment ++ "|" ++ toString fs.performance_fee_pct ++ "|" ++
  fs.rounding_rule ++ "|" ++ toString fs.upfront_fee_pct ++ "|" ++
  toString fs.vat_rate

/-- `FeeCalculationResult` (dataclass in `vc_enhanced_utils.py`). -/
structure FeeCalculationResult where
  gross_investment : ℚ
  net_investment : ℚ
  upfront_fee : ℚ
  amc_1_3_fee : ℚ
  amc_4_5_fee : ℚ
  performance_fee : ℚ
  total_fees : ℚ
  total_transfer : ℚ
  calculation_method : String
  breakdown : FeeBreakdown
  audit_trail : AuditTrail
  reconciliation : Reconciliation
  calc_hash : String
  timestamp : String
deriving DecidableEq, Repr

/-- `FeeCalculator.calc_breakdown`.  The wall-clock reading
(`datetime.now().isoformat()`) is passed in as the explicit `timestamp`
argument; `none` models the `ZeroDivisionError` of the net direction's
degenerate multiplier. -/
def calcBreakdown (investment_amount : ℚ) (is_net_investment : Bool)
    (company_data : Option CompanyData) (investor_data : Option InvestorData)
    (timestamp : String) : Option FeeCalculationResult :=
  let fee_structure := getEnhancedFeeStructure company_data
  let adjusted_structure := applyEnhancedInvestorAdjustments fee_structure investor_data
  let investor_type := determineInvestorType investor_data
  let result? :=
    if is_net_investment then
      calculateEnhancedNetInvestment investment_amount adjusted_structure investor_type
    else
      some (calculateEnhancedGrossInvestment investment_amount adjusted_structure investor_type)
  result?.map fun result =>
    { gross_investment := result.gross_investment
      net_investment := result.net_investment
      upfront_fee := result.upfront_fee
      amc_1_3_fee := result.amc_1_3_fee
      amc_4_5_fee := result.amc_4_5_fee
      performance_fee := result.performance_fee
      total_fees := result.total_fees
      total_transfer := result.total_transfer
      calculation_method := result.method
      breakdown := result.breakdown
      audit_trail :=
        { input_amount := investment_amount
          investment_type := if is_net_investment then "net" else "gross"
          fee_structure_applied := adjusted_structure
          rounding_applied := adjusted_structure.rounding_rule
          timestamp := timestamp }
      reconciliation := createReconciliation result is_net_investment
      calc_hash := calcHash investment_amount is_net_investment adjusted_structure
      timestamp := timestamp }

/-! ### Exactness infrastructure for the step-by-step rounding -/

/-- A rational that is a whole number of pence (exact at two decimal places). -/
def TwoDec (x : ℚ) : Prop := ∃ n : ℤ, x = (n : ℚ) / 100

lemma rhe_intCast (n : ℤ) : rhe (n : ℚ) = n := by
  unfold rhe
  norm_num [Int.floor_intCast]

lemma round2_pence (n : ℤ) : round2 ((n : ℚ) / 100) = (n : ℚ) / 100 := by
  unfold round2
  rw [show (100 : ℚ) * ((n : ℚ) / 100) = (n : ℚ) by ring, rhe_intCast]

lemma TwoDec.round2_eq {x : ℚ} (h : TwoDec x) : round2 x = x := by
  obtain ⟨n, rfl⟩ := h
  exact round2_pence n

lemma twoDec_round2 (x : ℚ) : TwoDec (round2 x) := ⟨rhe (100 * x), rfl⟩

lemma twoDec_of_round2_eq {x : ℚ} (h : round2 x = x) : TwoDec x :=
  h ▸ twoDec_round2 x

lemma TwoDec.applyRounding_eq {x : ℚ} (h : TwoDec x) (rule : String) :
    applyRounding x rule = x := by
  obtain ⟨n, rfl⟩ := h
  have h100 : (100 : ℚ) * ((n : ℚ) / 100) = (n : ℚ) := by ring
  unfold applyRounding roundUp2 roundDown2
  split_ifs <;>
    simp [round2_pence, h100, Int.ceil_intCast, Int.floor_intCast]

lemma twoDec_applyRounding (x : ℚ) (rule : String) :
    TwoDec (applyRounding x rule) := by
  unfold applyRounding roundUp2 roundDown2
  split_ifs
  · exact twoDec_round2 x
  · exact ⟨⌈100 * x⌉, rfl⟩
  · exact ⟨⌊100 * x⌋, rfl⟩
  · exact twoDec_round2 x

lemma TwoDec.add {x y : ℚ} (hx : TwoDec x) (hy : TwoDec y) : TwoDec (x + y) := by
  obtain ⟨m, rfl⟩ := hx
  obtain ⟨n, rfl⟩ := hy
  exact ⟨m + n, by push_cast; ring⟩

lemma TwoDec.sub {x y : ℚ} (hx : TwoDec x) (hy : TwoDec y) : TwoDec (x - y) := by
  obtain ⟨m, rfl⟩ := hx
  obtain ⟨n, rfl⟩ := hy
  exact ⟨m - n, by push_cast; ring⟩

lemma twoDec_zero : TwoDec 0 := ⟨0, by norm_num⟩

/-! ### C5, C6, C9, C10 -/

/-- C5: on a negative amount the fee calculation does not fail fast; it
returns an ordinary `FeeCalculationResult` whose `gross_investment` is the
negative input and whose totals are negative. -/
theorem c5_negative_amount_returns_result :
    ∃ r, calcBreakdown (-100) false none none "2024-01-01T00:00:00" = some r
      ∧ r.gross_investment = -100 ∧ r.total_fees = -9 ∧ r.total_transfer = -109
      ∧ r.gross_investment < 0 := by
  refine ⟨_, rfl, ?_, ?_, ?_, ?_⟩ <;>
    simp [calcBreakdown, calculateEnhancedGrossInvestment,
      getEnhancedFeeStructure, applyEnhancedInvestorAdjustments,
      determineInvestorType, rawInvestorType, DEFAULT_FEE_STRUCTURE,
      applyRounding] <;>
    norm_num [round2, rhe]

/-- C6: the Gross/Professional scenario at £50,000 with upfront 1.5%,
AMC 1–3 2.0%/yr, VAT 20% produces exactly the documented component values,
with `total_fees = upfront_total + amc_1_3_total` (AMC 4–5 excluded) and
`total_transfer = amount + total_fees`. -/
theorem c6_scenario_gross_professional_50000 :
    ∃ r, calcBreakdown 50000 false none none "2024-01-01T00:00:00" = some r
      ∧ r.breakdown.upfront_ex_vat = 750
      ∧ r.breakdown.upfront_total = 900
      ∧ r.breakdown.amc_1_3_ex_vat = 3000
      ∧ r.breakdown.amc_1_3_total = 3600
      ∧ r.total_fees = 4500
      ∧ r.total_transfer = 54500
      ∧ r.breakdown.amc_4_5_total = 1800
      ∧ r.total_fees = r.breakdown.upfront_total + r.breakdown.amc_1_3_total
      ∧ r.total_transfer = 50000 + r.total_fees := by
  refine ⟨_, rfl, ?_, ?_, ?_, ?_, ?_, ?_, ?_, ?_, ?_⟩ <;>
    simp [calcBreakdown, calculateEnhancedGrossInvestment,
      getEnhancedFeeStructure, applyEnhancedInvestorAdjustments,
      determineInvestorType, rawInvestorType, DEFAULT_FEE_STRUCTURE,
      applyRounding] <;>
    norm_num [round2, rhe]

/-- Strip the wall-clock fields from a `FeeCalculationResult` (the result
field `timestamp` and the copy inside the audit trail). -/
def eraseTimestamps (r : FeeCalculationResult) : FeeCalculationResult :=
  { r with timestamp := ""
           audit_trail := { r.audit_trail with timestamp := "" } }

/-- C9 (counterexample): two calls of `calc_breakdown` with identical
arguments but different wall-clock readings differ in the `timestamp` field
of the result, so the results are not identical in every field. -/
theorem c9_counterexample_timestamp_differs :
    ((calcBreakdown 50000 false none none "2024-01-01T00:00:00").map
        fun r => r.timestamp)
      ≠ ((calcBreakdown 50000 false none none "2024-01-02T00:00:00").map
        fun r => r.timestamp) := by
  decide

/-- C9 (amended): two calls of `calc_breakdown` with identical arguments
agree on every field of the result except the wall-clock timestamps; in
particular the audit hash `calc_hash` and all monetary fields are
identical. -/
theorem c9_amended_identical_up_to_timestamp :
    ∀ (amount : ℚ) (is_net : Bool) (cd : Option CompanyData)
      (idata : Option InvestorData) (ts1 ts2 : String),
      (calcBreakdown amount is_net cd idata ts1).map eraseTimestamps
        = (calcBreakdown amount is_net cd idata ts2).map eraseTimestamps := by
  intro amount is_net cd idata ts1 ts2
  simp only [calcBreakdown, Option.map_map]
  congr 1

/-- C10: the investor type is always `retail` or `professional`; it is
`retail` exactly when the lowercased `investor_type`/`classification` chain
is the string `retail` (absent or unrecognised values default to
`professional`); and the gross calculation deducts the upfront total from the
AMC base exactly when that type is `retail`. -/
theorem c10_investor_type_defaulting :
    ∀ investor_data : Option InvestorData,
      (determineInvestorType investor_data = "retail"
        ∨ determineInvestorType investor_data = "professional")
      ∧ (determineInvestorType investor_data = "retail"
          ↔ rawInvestorType investor_data = "retail")
      ∧ determineInvestorType none = "professional"
      ∧ ∀ (amount : ℚ) (cd : Option CompanyData) (ts : String),
          ∃ r, calcBreakdown amount false cd investor_data ts = some r
            ∧ r.breakdown.investor_type = determineInvestorType investor_data
            ∧ r.breakdown.amc_base =
                (if determineInvestorType investor_data = "retail" then
                  applyRounding (amount - r.breakdown.upfront_total)
                    (applyEnhancedInvestorAdjustments
                      (getEnhancedFeeStructure cd) investor_data).rounding_rule
                else amount) := by
  intro investor_data
  refine ⟨?_, ?_, by decide, ?_⟩
  · unfold determineInvestorType
    by_cases hc : rawInvestorType investor_data = "retail"
        ∨ rawInvestorType investor_data = "professional"
    · simp [hc]
    · simp [hc]
  · unfold determineInvestorType
    by_cases hc : rawInvestorType investor_data = "retail"
        ∨ rawInvestorType investor_data = "professional"
    · simp [hc]
    · simp only [hc, if_false]
      constructor
      · intro h; exact absurd h (by decide)
      · intro h; exact absurd (Or.inl h) hc
  · intro amount cd ts
    refine ⟨_, rfl, rfl, ?_⟩
    by_cases hr : determineInvestorType investor_data = "retail" <;>
      simp [calculateEnhancedGrossInvestment, hr]

/-! ### C1, C4: exactness of the forward calculation and the inverse -/

/-- The algebraic (rounding-free) AMC base of the forward calculation:
`amount - upfront_total` for retail, `amount` otherwise. -/
def amcBaseExact (G : ℚ) (fs : FeeStructure) (ity : String) : ℚ :=
  if ity = "retail" then
    G - (G * (fs.upfront_fee_pct / 100)
         + G * (fs.upfront_fee_pct / 100) * (fs.vat_rate / 100))
  else G

/-- When the amount and each intermediate product are exact at two decimal
places, every rounding step of `_calculate_enhanced_gross_investment` is the
identity and the components take their algebraic closed forms. -/
lemma grossCalc_exact (G : ℚ) (fs : FeeStructure) (ity : String)
    (hG : round2 G = G)
    (h1 : round2 (G * (fs.upfront_fee_pct / 100)) = G * (fs.upfront_fee_pct / 100))
    (h2 : round2 (G * (fs.upfront_fee_pct / 100) * (fs.vat_rate / 100))
        = G * (fs.upfront_fee_pct / 100) * (fs.vat_rate / 100))
    (h3 : round2 (amcBaseExact G fs ity * (fs.amc_1_3_pct / 100 * 3))
        = amcBaseExact G fs ity * (fs.amc_1_3_pct / 100 * 3))
    (h4 : round2 (amcBaseExact G fs ity * (fs.amc_1_3_pct / 100 * 3) * (fs.vat_rate / 100))
        = amcBaseExact G fs ity * (fs.amc_1_3_pct / 100 * 3) * (fs.vat_rate / 100)) :
    (calculateEnhancedGrossInvestment G fs ity).breakdown.upfront_total
        = G * (fs.upfront_fee_pct / 100) + G * (fs.upfront_fee_pct / 100) * (fs.vat_rate / 100)
    ∧ (calculateEnhancedGrossInvestment G fs ity).breakdown.amc_base = amcBaseExact G fs ity
    ∧ (calculateEnhancedGrossInvestment G fs ity).breakdown.amc_1_3_total
        = amcBaseExact G fs ity * (fs.amc_1_3_pct / 100 * 3)
          + amcBaseExact G fs ity * (fs.amc_1_3_pct / 100 * 3) * (fs.vat_rate / 100)
    ∧ (calculateEnhancedGrossInvestment G fs ity).total_fees
        = (G * (fs.upfront_fee_pct / 100) + G * (fs.upfront_fee_pct / 100) * (fs.vat_rate / 100))
          + (amcBaseExact G fs ity * (fs.amc_1_3_pct / 100 * 3)
             + amcBaseExact G fs ity * (fs.amc_1_3_pct / 100 * 3) * (fs.vat_rate / 100))
    ∧ (calculateEnhancedGrossInvestment G fs ity).total_transfer
        = G + ((G * (fs.upfront_fee_pct / 100) + G * (fs.upfront_fee_pct / 100) * (fs.vat_rate / 100))
          + (amcBaseExact G fs ity * (fs.amc_1_3_pct / 100 * 3)
             + amcBaseExact G fs ity * (fs.amc_1_3_pct / 100 * 3) * (fs.vat_rate / 100))) := by
  have tG := twoDec_of_round2_eq hG
  have t1 := twoDec_of_round2_eq h1
  have t2 := twoDec_of_round2_eq h2
  have e1 := t1.applyRounding_eq fs.rounding_rule
  have e2 := t2.applyRounding_eq fs.rounding_rule
  have e3 := (t1.add t2).applyRounding_eq fs.rounding_rule
  by_cases hr : ity = "retail"
  · subst hr
    have hbase : amcBaseExact G fs "retail"
        = G - (G * (fs.upfront_fee_pct / 100)
               + G * (fs.upfront_fee_pct / 100) * (fs.vat_rate / 100)) := by
      simp [amcBaseExact]
    have t3 := twoDec_of_round2_eq h3
    have t4 := twoDec_of_round2_eq h4
    rw [hbase] at t3 t4
    have ebase := (tG.sub (t1.add t2)).applyRounding_eq fs.rounding_rule
    have e4 := t3.applyRounding_eq fs.rounding_rule
    have e5 := t4.applyRounding_eq fs.rounding_rule
    have e6 := (t3.add t4).applyRounding_eq fs.rounding_rule
    have e7 := ((t1.add t2).add (t3.add t4)).applyRounding_eq fs.rounding_rule
    have e8 := (tG.add ((t1.add t2).add (t3.add t4))).applyRounding_eq fs.rounding_rule
    refine ⟨?_, ?_, ?_, ?_, ?_⟩ <;>
      simp [calculateEnhancedGrossInvestment, hbase,
        e1, e2, e3, ebase, e4, e5, e6, e7, e8]
  · have hbase : amcBaseExact G fs ity = G := by simp [amcBaseExact, hr]
    have t3 := twoDec_of_round2_eq h3
    have t4 := twoDec_of_round2_eq h4
    rw [hbase] at t3 t4
    have e4 := t3.applyRounding_eq fs.rounding_rule
    have e5 := t4.applyRounding_eq fs.rounding_rule
    have e6 := (t3.add t4).applyRounding_eq fs.rounding_rule
    have e7 := ((t1.add t2).add (t3.add t4)).applyRounding_eq fs.rounding_rule
    have e8 := (tG.add ((t1.add t2).add (t3.add t4))).applyRounding_eq fs.rounding_rule
    refine ⟨?_, ?_, ?_, ?_, ?_⟩ <;>
      simp [calculateEnhancedGrossInvestment, hbase, hr,
        e1, e2, e3, e4, e5, e6, e7, e8]

/-- The net direction always derives its gross figure as the rounded quotient
of the net amount by the closed-form multiplier. -/
lemma netInv_gross (N : ℚ) (fs : FeeStructure) (ity : String)
    (hm : netMultiplier fs ity ≠ 0) :
    (calculateEnhancedNetInvestment N fs ity).map (fun r => r.gross_investment)
      = some (applyRounding (N / netMultiplier fs ity) fs.rounding_rule) := by
  simp only [calculateEnhancedNetInvestment]
  rw [if_neg hm]
  simp [calculateEnhancedGrossInvestment]

/-- The fee structure of the C1 counterexample: upfront 1.5%, AMC 1–3 of
0.5%/yr, VAT 20%, banker rounding. -/
def fsC1 : FeeStructure := { DEFAULT_FEE_STRUCTURE with amc_1_3_pct := 0.5 }

/-- C1 (counterexample): at gross £8.34 with upfront 1.5%, AMC 1–3 0.5%/yr,
VAT 20%, professional, the forward/inverse round trip returns £8.36 — a
deviation of £0.02, which exceeds the claimed one-rounding-unit (£0.01)
tolerance. -/
theorem c1_counterexample_roundtrip_off_by_two_pence :
    ((calculateEnhancedNetInvestment
        ((calculateEnhancedGrossInvestment 8.34 fsC1 "professional").total_transfer)
        fsC1 "professional").map fun r => r.gross_investment) = some 8.36
    ∧ ((8.36 : ℚ) - 8.34 = 0.02) ∧ ¬((8.36 : ℚ) - 8.34 ≤ 0.01) := by
  have hm : netMultiplier fsC1 "professional" ≠ 0 := by
    simp [netMultiplier, fsC1, DEFAULT_FEE_STRUCTURE] <;> norm_num
  refine ⟨?_, by norm_num, by norm_num⟩
  rw [netInv_gross _ _ _ hm]
  simp [calculateEnhancedGrossInvestment, netMultiplier, fsC1,
    DEFAULT_FEE_STRUCTURE, applyRounding] <;>
  norm_num [round2, rhe]

/-- C1 (amended): the net direction always derives gross from the closed-form
multiplier (`1 + t*(u + a)` professional, `1 + u*t + a*t - u*a*t^2` retail),
and whenever the gross amount and the intermediate fee products are exact at
two decimal places (and the multiplier is nonzero) the forward/inverse round
trip recovers the gross amount exactly. -/
theorem c1_amended_roundtrip_exact_under_exactness
    (G : ℚ) (fs : FeeStructure) (ity : String)
    (hG : round2 G = G)
    (h1 : round2 (G * (fs.upfront_fee_pct / 100)) = G * (fs.upfront_fee_pct / 100))
    (h2 : round2 (G * (fs.upfront_fee_pct / 100) * (fs.vat_rate / 100))
        = G * (fs.upfront_fee_pct / 100) * (fs.vat_rate / 100))
    (h3 : round2 (amcBaseExact G fs ity * (fs.amc_1_3_pct / 100 * 3))
        = amcBaseExact G fs ity * (fs.amc_1_3_pct / 100 * 3))
    (h4 : round2 (amcBaseExact G fs ity * (fs.amc_1_3_pct / 100 * 3) * (fs.vat_rate / 100))
        = amcBaseExact G fs ity * (fs.amc_1_3_pct / 100 * 3) * (fs.vat_rate / 100))
    (hm : netMultiplier fs ity ≠ 0) :
    ((calculateEnhancedNetInvestment
        ((calculateEnhancedGrossInvestment G fs ity).total_transfer) fs ity).map
          fun r => r.gross_investment) = some G
    ∧ ∀ N : ℚ, (calculateEnhancedNetInvestment N fs ity).map (fun r => r.gross_investment)
        = some (applyRounding (N / netMultiplier fs ity) fs.rounding_rule) := by
  have hg := grossCalc_exact G fs ity hG h1 h2 h3 h4
  refine ⟨?_, fun N => netInv_gross N fs ity hm⟩
  rw [netInv_gross _ fs ity hm, hg.2.2.2.2]
  have hmul : G + ((G * (fs.upfront_fee_pct / 100)
        + G * (fs.upfront_fee_pct / 100) * (fs.vat_rate / 100))
      + (amcBaseExact G fs ity * (fs.amc_1_3_pct / 100 * 3)
         + amcBaseExact G fs ity * (fs.amc_1_3_pct / 100 * 3) * (fs.vat_rate / 100)))
      = G * netMultiplier fs ity := by
    by_cases hr : ity = "retail" <;>
      simp [netMultiplier, amcBaseExact, hr] <;> ring
  rw [hmul, mul_div_cancel_right₀ _ hm,
    (twoDec_of_round2_eq hG).applyRounding_eq]

/-- C1 (witness): the amended round-trip theorem applied to the £50,000
Professional default-structure scenario, recovering £50,000 exactly. -/
theorem c1_witness_roundtrip_50000 :
    ((calculateEnhancedNetInvestment
        ((calculateEnhancedGrossInvestment 50000 DEFAULT_FEE_STRUCTURE "professional").total_transfer)
        DEFAULT_FEE_STRUCTURE "professional").map fun r => r.gross_investment)
      = some 50000 :=
  (c1_amended_roundtrip_exact_under_exactness 50000 DEFAULT_FEE_STRUCTURE "professional"
    (by norm_num [round2, rhe])
    (by norm_num [round2, rhe, DEFAULT_FEE_STRUCTURE])
    (by norm_num [round2, rhe, DEFAULT_FEE_STRUCTURE])
    (by simp [DEFAULT_FEE_STRUCTURE, amcBaseExact] <;> norm_num [round2, rhe])
    (by simp [DEFAULT_FEE_STRUCTURE, amcBaseExact] <;> norm_num [round2, rhe])
    (by simp [netMultiplier, DEFAULT_FEE_STRUCTURE] <;> norm_num)).1

/-- C4 (counterexample): at gross £1000.01 with the default structure the two
total transfers differ by £1.30, while the cross term
`upfront_total × (amc_1_3_pct × 3) × (1 + vat_pct)` is £1.296 — the claimed
exact equality fails once intermediate rounding is engaged. -/
theorem c4_counterexample_cross_term_not_exact :
    (calculateEnhancedGrossInvestment 1000.01 DEFAULT_FEE_STRUCTURE "professional").total_transfer
      - (calculateEnhancedGrossInvestment 1000.01 DEFAULT_FEE_STRUCTURE "retail").total_transfer
      = 1.30
    ∧ (calculateEnhancedGrossInvestment 1000.01 DEFAULT_FEE_STRUCTURE "retail").breakdown.upfront_total
        * (DEFAULT_FEE_STRUCTURE.amc_1_3_pct / 100 * 3)
        * (1 + DEFAULT_FEE_STRUCTURE.vat_rate / 100) = 1.296
    ∧ ((1.30 : ℚ) ≠ 1.296) := by
  refine ⟨?_, ?_, by norm_num⟩ <;>
    simp [calculateEnhancedGrossInvestment, DEFAULT_FEE_STRUCTURE, applyRounding] <;>
    norm_num [round2, rhe]

/-- C4 (amended): the retail AMC base is the rounded difference
`amount - upfront_total` (exactly that difference here, since the amount is a
whole number of pence), the professional AMC base is the amount itself, and —
when the intermediate AMC products are also exact at two decimal places — the
two total transfers differ by exactly
`upfront_total × (amc_1_3_pct × 3) × (1 + vat_pct)`. -/
theorem c4_amended_retail_professional_divergence (G : ℚ) (fs : FeeStructure)
    (hG : round2 G = G)
    (h1 : round2 (G * (fs.upfront_fee_pct / 100)) = G * (fs.upfront_fee_pct / 100))
    (h2 : round2 (G * (fs.upfront_fee_pct / 100) * (fs.vat_rate / 100))
        = G * (fs.upfront_fee_pct / 100) * (fs.vat_rate / 100))
    (h3p : round2 (G * (fs.amc_1_3_pct / 100 * 3)) = G * (fs.amc_1_3_pct / 100 * 3))
    (h4p : round2 (G * (fs.amc_1_3_pct / 100 * 3) * (fs.vat_rate / 100))
        = G * (fs.amc_1_3_pct / 100 * 3) * (fs.vat_rate / 100))
    (h3r : round2 ((G - (G * (fs.upfront_fee_pct / 100)
              + G * (fs.upfront_fee_pct / 100) * (fs.vat_rate / 100)))
            * (fs.amc_1_3_pct / 100 * 3))
        = (G - (G * (fs.upfront_fee_pct / 100)
              + G * (fs.upfront_fee_pct / 100) * (fs.vat_rate / 100)))
            * (fs.amc_1_3_pct / 100 * 3))
    (h4r : round2 ((G - (G * (fs.upfront_fee_pct / 100)
              + G * (fs.upfront_fee_pct / 100) * (fs.vat_rate / 100)))
            * (fs.amc_1_3_pct / 100 * 3) * (fs.vat_rate / 100))
        = (G - (G * (fs.upfront_fee_pct / 100)
              + G * (fs.upfront_fee_pct / 100) * (fs.vat_rate / 100)))
            * (fs.amc_1_3_pct / 100 * 3) * (fs.vat_rate / 100)) :
    (calculateEnhancedGrossInvestment G fs "retail").breakdown.amc_base
        = G - (calculateEnhancedGrossInvestment G fs "retail").breakdown.upfront_total
    ∧ (calculateEnhancedGrossInvestment G fs "professional").breakdown.amc_base = G
    ∧ (calculateEnhancedGrossInvestment G fs "professional").total_transfer
        - (calculateEnhancedGrossInvestment G fs "retail").total_transfer
      = (calculateEnhancedGrossInvestment G fs "retail").breakdown.upfront_total
          * (fs.amc_1_3_pct / 100 * 3) * (1 + fs.vat_rate / 100) := by
  have hbP : amcBaseExact G fs "professional" = G := by simp [amcBaseExact]
  have hbR : amcBaseExact G fs "retail"
      = G - (G * (fs.upfront_fee_pct / 100)
             + G * (fs.upfront_fee_pct / 100) * (fs.vat_rate / 100)) := by
    simp [amcBaseExact]
  have hP := grossCalc_exact G fs "professional" hG h1 h2
    (by rw [hbP]; exact h3p) (by rw [hbP]; exact h4p)
  have hR := grossCalc_exact G fs "retail" hG h1 h2
    (by rw [hbR]; exact h3r) (by rw [hbR]; exact h4r)
  refine ⟨?_, ?_, ?_⟩
  · rw [hR.2.1, hR.1, hbR]
  · rw [hP.2.1, hbP]
  · rw [hP.2.2.2.2, hR.2.2.2.2, hR.1, hbP, hbR]
    ring

/-- C4 (witness): the amended divergence theorem at the £50,000 default
scenario, where the cross term is exact: the transfers differ by
`900 × 6% × 1.2 = £64.80`. -/
theorem c4_witness_divergence_50000 :
    (calculateEnhancedGrossInvestment 50000 DEFAULT_FEE_STRUCTURE "professional").total_transfer
      - (calculateEnhancedGrossInvestment 50000 DEFAULT_FEE_STRUCTURE "retail").total_transfer
    = (calculateEnhancedGrossInvestment 50000 DEFAULT_FEE_STRUCTURE "retail").breakdown.upfront_total
        * (DEFAULT_FEE_STRUCTURE.amc_1_3_pct / 100 * 3)
        * (1 + DEFAULT_FEE_STRUCTURE.vat_rate / 100) :=
  (c4_amended_retail_professional_divergence 50000 DEFAULT_FEE_STRUCTURE
    (by norm_num [round2, rhe])
    (by norm_num [round2, rhe, DEFAULT_FEE_STRUCTURE])
    (by norm_num [round2, rhe, DEFAULT_FEE_STRUCTURE])
    (by norm_num [round2, rhe, DEFAULT_FEE_STRUCTURE])
    (by norm_num [round2, rhe, DEFAULT_FEE_STRUCTURE])
    (by norm_num [round2, rhe, DEFAULT_FEE_STRUCTURE])
    (by norm_num [round2, rhe, DEFAULT_FEE_STRUCTURE])).2.2

/-- C7 (counterexample): at gross £2.00 (professional, defaults), the
upfront total is £0.04 at VAT 20% but £0.03 at VAT 0%, and
`0.04 ≠ 1.20 × 0.03` — component-wise VAT scaling fails under rounding. -/
theorem c7_counterexample_vat_scaling_fails :
    (calculateEnhancedGrossInvestment 2 DEFAULT_FEE_STRUCTURE "professional").breakdown.upfront_total
      = 0.04
    ∧ (calculateEnhancedGrossInvestment 2 { DEFAULT_FEE_STRUCTURE with vat_rate := 0 }
        "professional").breakdown.upfront_total = 0.03
    ∧ ((0.04 : ℚ) ≠ 120 / 100 * 0.03) := by
  refine ⟨?_, ?_, by norm_num⟩ <;>
    simp [calculateEnhancedGrossInvestment, DEFAULT_FEE_STRUCTURE, applyRounding] <;>
    norm_num [round2, rhe]

/-- C7 (amended): for the professional calculation, whenever the ex-VAT fee
products and their 20%-VAT multiples are exact at two decimal places, each
VAT-inclusive component and the immediate `total_fees` at `vat_rate = 20`
equal exactly 1.20 times their values at `vat_rate = 0`. -/
theorem c7_amended_vat_scaling_exact (G : ℚ) (fs : FeeStructure)
    (h1 : round2 (G * (fs.upfront_fee_pct / 100)) = G * (fs.upfront_fee_pct / 100))
    (h1v : round2 (G * (fs.upfront_fee_pct / 100) * (20 / 100))
        = G * (fs.upfront_fee_pct / 100) * (20 / 100))
    (h2 : round2 (G * (fs.amc_1_3_pct / 100 * 3)) = G * (fs.amc_1_3_pct / 100 * 3))
    (h2v : round2 (G * (fs.amc_1_3_pct / 100 * 3) * (20 / 100))
        = G * (fs.amc_1_3_pct / 100 * 3) * (20 / 100))
    (h3 : round2 (G * (fs.amc_4_5_pct / 100 * 2)) = G * (fs.amc_4_5_pct / 100 * 2))
    (h3v : round2 (G * (fs.amc_4_5_pct / 100 * 2) * (20 / 100))
        = G * (fs.amc_4_5_pct / 100 * 2) * (20 / 100)) :
    (calculateEnhancedGrossInvestment G { fs with vat_rate := 20 } "professional").breakdown.upfront_total
        = 120 / 100 * (calculateEnhancedGrossInvestment G { fs with vat_rate := 0 } "professional").breakdown.upfront_total
    ∧ (calculateEnhancedGrossInvestment G { fs with vat_rate := 20 } "professional").breakdown.amc_1_3_total
        = 120 / 100 * (calculateEnhancedGrossInvestment G { fs with vat_rate := 0 } "professional").breakdown.amc_1_3_total
    ∧ (calculateEnhancedGrossInvestment G { fs with vat_rate := 20 } "professional").breakdown.amc_4_5_total
        = 120 / 100 * (calculateEnhancedGrossInvestment G { fs with vat_rate := 0 } "professional").breakdown.amc_4_5_total
    ∧ (calculateEnhancedGrossInvestment G { fs with vat_rate := 20 } "professional").total_fees
        = 120 / 100 * (calculateEnhancedGrossInvestment G { fs with vat_rate := 0 } "professional").total_fees := by
  have t1 := twoDec_of_round2_eq h1
  have t1v := twoDec_of_round2_eq h1v
  have t2 := twoDec_of_round2_eq h2
  have t2v := twoDec_of_round2_eq h2v
  have t3 := twoDec_of_round2_eq h3
  have t3v := twoDec_of_round2_eq h3v
  have z : ∀ rule, applyRounding 0 rule = 0 := fun rule =>
    twoDec_zero.applyRounding_eq rule
  have e1 := t1.applyRounding_eq fs.rounding_rule
  have e1v := t1v.applyRounding_eq fs.rounding_rule
  have e1s := (t1.add t1v).applyRounding_eq fs.rounding_rule
  have e2 := t2.applyRounding_eq fs.rounding_rule
  have e2v := t2v.applyRounding_eq fs.rounding_rule
  have e2s := (t2.add t2v).applyRounding_eq fs.rounding_rule
  have e3 := t3.applyRounding_eq fs.rounding_rule
  have e3v := t3v.applyRounding_eq fs.rounding_rule
  have e3s := (t3.add t3v).applyRounding_eq fs.rounding_rule
  have eF20 := ((t1.add t1v).add (t2.add t2v)).applyRounding_eq fs.rounding_rule
  have eF0 := (t1.add t2).applyRounding_eq fs.rounding_rule
  refine ⟨?_, ?_, ?_, ?_⟩ <;>
    simp [calculateEnhancedGrossInvestment,
      e1, e1v, e1s, e2, e2v, e2s, e3, e3v, e3s, eF20, eF0, z] <;>
    ring

/-- C7 (witness): the amended VAT-scaling theorem at the £50,000
professional scenario: `total_fees` is £4,500 at VAT 20% and £3,750 at
VAT 0%, scaling exactly by 1.20. -/
theorem c7_witness_vat_scaling_50000 :
    (calculateEnhancedGrossInvestment 50000 { DEFAULT_FEE_STRUCTURE with vat_rate := 20 }
        "professional").total_fees
      = 120 / 100 *
        (calculateEnhancedGrossInvestment 50000 { DEFAULT_FEE_STRUCTURE with vat_rate := 0 }
          "professional").total_fees :=
  (c7_amended_vat_scaling_exact 50000 DEFAULT_FEE_STRUCTURE
    (by norm_num [round2, rhe, DEFAULT_FEE_STRUCTURE])
    (by norm_num [round2, rhe, DEFAULT_FEE_STRUCTURE])
    (by norm_num [round2, rhe, DEFAULT_FEE_STRUCTURE])
    (by norm_num [round2, rhe, DEFAULT_FEE_STRUCTURE])
    (by norm_num [round2, rhe, DEFAULT_FEE_STRUCTURE])
    (by norm_num [round2, rhe, DEFAULT_FEE_STRUCTURE])).2.2.2

/-! ### Entity resolution (`adapters/excel_three_sheet_adapter.py`)

String processing is embedded at the character-list level (Python `str`
methods are modelled by executable `List Char` functions), so that closed
instances evaluate inside the kernel. -/

/-- Python `str.lower()` (ASCII). -/
def lowerS (s : String) : String := ⟨s.data.map Char.toLower⟩

/-- Python `str.strip()`: drop leading and trailing whitespace. -/
def trimD (l : List Char) : List Char :=
  ((l.dropWhile Char.isWhitespace).reverse.dropWhile Char.isWhitespace).reverse

/-- Python `str.strip()` on a string. -/
def trimS (s : String) : String := ⟨trimD s.data⟩

/-- `_compress` / the compressed form: `re.sub(r"[^a-z0-9]", "", x.lower())`. -/
def compress (s : String) : List Char :=
  (s.data.map Char.toLower).filter Char.isAlphanum

/-- Whether `needle` is a prefix of `hay` (executable, character lists). -/
def prefixAt : List Char → List Char → Bool
  | [], _ => true
  | _ :: _, [] => false
  | a :: as, b :: bs => a == b && prefixAt as bs

/-- Python `needle in hay` substring containment (also pandas
`str.contains` with a literal, regex-metacharacter-free pattern, which is
all this adapter ever passes). -/
def subOf (needle : List Char) : List Char → Bool
  | [] => needle.isEmpty
  | c :: t => prefixAt needle (c :: t) || subOf needle t

/-- Python `str.split()` / `re.split(r"\s+", ...)` with empty pieces
dropped. -/
def splitWsAux : List Char → List Char → List (List Char)
  | [], acc => [acc.reverse]
  | c :: t, acc =>
    if c.isWhitespace then acc.reverse :: splitWsAux t []
    else splitWsAux t (c :: acc)

/-- Whitespace tokenization dropping empty tokens. -/
def splitWsD (l : List Char) : List (List Char) :=
  (splitWsAux l []).filter (fun p => !p.isEmpty)

/-- Python `" ".join(parts)`. -/
def joinSpaceD : List (List Char) → List Char
  | [] => []
  | [x] => x
  | x :: xs => x ++ ' ' :: joinSpaceD xs

/-- Python `str.endswith(suffix)`. -/
def endsWithD (l suf : List Char) : Bool :=
  prefixAt suf.reverse l.reverse

/-- An `InvestorSheet` row (canonical columns after header normalization in
`ExcelLocalThreeSheet.__init__`). -/
structure InvRow where
  custRef : String
  accountName : String
  salutation : String
  firstName : String
  lastName : String
  contactEmail : String
  loginEmail : String
deriving DecidableEq, Repr

/-- The precomputed `__full__` column:
`(First Name.strip() + " " + Last Name.strip()).strip()`. -/
def fullName (r : InvRow) : String :=
  ⟨trimD (trimD r.firstName.data ++ ' ' :: trimD r.lastName.data)⟩

/-- The `ValueError`s raised by the adapter's resolution paths, as tagged
error values (the Python message strings are presentation; the constructors
carry the data interpolated into them). -/
inductive ResolveErr where
  | ambiguousContainment (query : String) (preview : List String)
  | ambiguousFuzzy (query : String) (names : List String)
  | investorNotFound (query : String)
  | companyNotFound (query : String)
deriving DecidableEq, Repr

deriving instance DecidableEq for Except

/-- Email-exact tier of `find_investor_row` (only attempted when the query
contains an `@`). -/
def invEmailHit (s : String) (rows : List InvRow) : Option InvRow :=
  if s.data.contains '@' then
    rows.find? fun r => (lowerS r.contactEmail).data == s.data
  else none

/-- Custodian-Client-Ref exact tier of `find_investor_row`. -/
def invRefHit (s : String) (rows : List InvRow) : Option InvRow :=
  rows.find? fun r => (lowerS (trimS r.custRef)).data == s.data

/-- Compressed-exact tier of `find_investor_row` on the `__full__` column. -/
def invCompExactHit (s : String) (rows : List InvRow) : Option InvRow :=
  rows.find? fun r => compress (fullName r) == compress s

/-- Compressed-containment tier of `find_investor_row`: rows whose compressed
full name contains the compressed query. -/
def invContainMatches (s : String) (rows : List InvRow) : List InvRow :=
  rows.filter fun r => subOf (compress s) (compress (fullName r))

/-- Stable insertion of a scored choice into a descending-by-score list. -/
def insDesc : List (String × ℚ) → (String × ℚ) → List (String × ℚ)
  | [], p => [p]
  | q :: t, p => if q.2 < p.2 then p :: q :: t else q :: insDesc t p

/-- Scored choices sorted by score, descending, stably
(`rapidfuzz.process.extract` ordering). -/
def sortScoresDesc (l : List (String × ℚ)) : List (String × ℚ) :=
  l.foldl insDesc []

/-- One column pass of the fuzzy tier of `find_investor_row`
(`rapidfuzz.process.extract(query, choices, limit=5)` then the ≥75 filter):
`none` means "continue with the next column". -/
def fuzzyTierResult (fz : String → String → ℚ) (investor_query : String)
    (rows : List InvRow) (col : InvRow → String) :
    Option (Except ResolveErr (Option InvRow)) :=
  if rows.isEmpty then none
  else
    let choices := rows.map col
    let extracted := (sortScoresDesc (choices.map fun c => (c, fz investor_query c))).take 5
    let high_matches := extracted.filter fun m => 75 ≤ m.2
    if 1 < high_matches.length then
      some (.error (.ambiguousFuzzy investor_query (high_matches.map Prod.fst)))
    else
      match high_matches with
      | hit :: _ =>
        -- `choices.index(hit[0])` then `iloc`: the first row whose column
        -- value equals the matched string (always found, since the match
        -- came from `choices`).
        (rows.find? fun r => col r == hit.1).map fun r => .ok (some r)
      | [] => none

/-- `ExcelLocalThreeSheet.find_investor_row`.  The external rapidfuzz scorer
is the parameter `fz`; a raised `ValueError` is an `Except.error`. -/
def findInvestorRow (fz : String → String → ℚ) (investor_query : String)
    (rows : List InvRow) : Except ResolveErr (Option InvRow) :=
  let s := lowerS (trimS investor_query)
  match invEmailHit s rows with
  | some r => .ok (some r)
  | none =>
  match invRefHit s rows with
  | some r => .ok (some r)
  | none =>
  match invCompExactHit s rows with
  | some r => .ok (some r)
  | none =>
    let m := invContainMatches s rows
    if 1 < m.length then
      .error (.ambiguousContainment investor_query ((m.map fullName).take 5))
    else
      match m.head? with
      | some r => .ok (some r)
      | none =>
        match fuzzyTierResult fz investor_query rows fullName with
        | some res => res
        | none =>
          match fuzzyTierResult fz investor_query rows (fun r => r.accountName) with
          | some res => res
          | none => .ok none

/-- A `CompanySheet` row (detected canonical columns).  The share price is
pre-coerced to `Option ℚ` (`none` models a missing/unparseable cell, for
which the source's `float(...)`-with-fallback yields 1.0). -/
structure CoRow where
  companyName : String
  currentSharePrice : Option ℚ
  companyNumber : String
  shareClass : Option String
deriving DecidableEq, Repr

/-- `_norm` inside `find_company_row`: lowercase, strip, drop the first
matching legal suffix (longest-first list order as in the source), collapse
internal whitespace. -/
def normCompany (n : String) : String :=
  let x := trimD (n.data.map Char.toLower)
  let sufs : List String :=
    [" limited", " ltd.", " ltd", " plc", " llp", " inc.", " inc",
     " corp.", " corp", " co.", " company"]
  let x1 :=
    match sufs.find? (fun suf => endsWithD x suf.data) with
    | some suf => x.take (x.length - suf.data.length)
    | none => x
  ⟨joinSpaceD (splitWsD x1)⟩

/-- Direct exact-name tier of `find_company_row`. -/
def coExactHit (s : String) (cos : List CoRow) : Option CoRow :=
  cos.find? fun r => (lowerS (trimS r.companyName)).data == s.data

/-- Plain lowercase-containment tier of `find_company_row`. -/
def coContainHit (s : String) (cos : List CoRow) : Option CoRow :=
  cos.find? fun r => subOf s.data (lowerS r.companyName).data

/-- Normalized (legal-suffix-stripped) equality tier of `find_company_row`. -/
def coNormHit (company_query : String) (cos : List CoRow) : Option CoRow :=
  cos.find? fun r => (normCompany r.companyName).data == (normCompany company_query).data

/-- Compressed-exact tier of `find_company_row`. -/
def coCompExactHit (company_query : String) (cos : List CoRow) : Option CoRow :=
  cos.find? fun r => compress r.companyName == compress company_query

/-- Compressed-containment tier of `find_company_row` — all matching rows
(the source then takes `iloc[0]` with no ambiguity guard). -/
def coCompContainMatches (company_query : String) (cos : List CoRow) : List CoRow :=
  cos.filter fun r => subOf (compress company_query) (compress r.companyName)

/-- `ExcelLocalThreeSheet.find_company_row`.  `fzOne` is the external
`rapidfuzz.process.extractOne` (returns `none` when rapidfuzz is absent or
finds nothing). -/
def findCompanyRow (fzOne : String → List String → Option (String × ℚ))
    (company_query : String) (cos : List CoRow) : Option CoRow :=
  let s := lowerS (trimS company_query)
  match coExactHit s cos with
  | some r => some r
  | none =>
  match coContainHit s cos with
  | some r => some r
  | none =>
  match coNormHit company_query cos with
  | some r => some r
  | none =>
  match coCompExactHit company_query cos with
  | some r => some r
  | none =>
  match (coCompContainMatches company_query cos).head? with
  | some r => some r
  | none =>
    match fzOne company_query (cos.map fun r => r.companyName) with
    | some hit =>
      if 75 ≤ hit.2 then cos.find? fun r => r.companyName == hit.1
      else none
    | none => none

/-- A `FeeSheet` row (canonical columns).  The date cell is pre-parsed
(`pd.to_datetime(..., errors="coerce")`) to an ordinal, `none` for `NaT`. -/
structure FeeRow where
  custRef : String
  investorName : String
  subscriptionCode : String
  fund : String
  grossNet : String
  ccSetUpFeePct : Option ℚ
  ccAmcPct : Option ℚ
  ccCarryPct : Option ℚ
  depositNum : Option ℚ
  depositDate : Option ℤ
deriving DecidableEq, Repr

/-- Descending `Deposit #` comparison, NaN (`none`) last. -/
def feeDepBefore (a b : FeeRow) : Bool :=
  match a.depositNum, b.depositNum with
  | some x, some y => decide (y < x)
  | some _, none => true
  | none, some _ => false
  | none, none => false

/-- The `sort_values(by=["_dt", "Deposit #"], ascending=[False, False],
na_position="last")` ordering: date descending with `NaT` last, then
deposit number descending. -/
def feeRowBefore (a b : FeeRow) : Bool :=
  match a.depositDate, b.depositDate with
  | some x, some y => if x = y then feeDepBefore a b else decide (y < x)
  | some _, none => true
  | none, some _ => false
  | none, none => feeDepBefore a b

/-- Insertion step of the fee-row sort. -/
def insFeeRow : List FeeRow → FeeRow → List FeeRow
  | [], p => [p]
  | q :: t, p => if feeRowBefore p q then p :: q :: t else q :: insFeeRow t p

/-- The fee-row sort (ties keep an arbitrary fixed order, as does the
source's default non-stable quicksort). -/
def sortFeeRows (l : List FeeRow) : List FeeRow := l.foldl insFeeRow []

/-- `ExcelLocalThreeSheet.find_fee_row`.  The final block of the source
computes a rapidfuzz hit and *discards* it ("DISABLED: Fuzzy matching is too
dangerous for investor data", it only prints a warning), so the `fzOne`
parameter never influences the result. -/
def findFeeRow (fzOne : String → List String → Option (String × ℚ))
    (cust_ref : String) (subscription_code : Option String)
    (investor_full_name : Option String) (fees : List FeeRow) : Option FeeRow :=
  let rhs := lowerS (trimS cust_ref)
  let df0 := fees.filter fun r => (lowerS (trimS r.custRef)).data == rhs.data
  let df1 :=
    if df0.isEmpty then
      match investor_full_name with
      | some nm =>
        if nm = "" then df0
        else
          let full := trimS nm
          let target := compress full
          let dfA := fees.filter fun r => compress r.investorName == target
          let dfB :=
            if dfA.isEmpty then
              fees.filter fun r => subOf target (compress r.investorName)
            else dfA
          let parts := splitWsD full.data
          let dfC :=
            if dfB.isEmpty && decide (2 ≤ parts.length) then
              let rev_target := compress ⟨joinSpaceD parts.reverse⟩
              let d := fees.filter fun r => compress r.investorName == rev_target
              if d.isEmpty then
                fees.filter fun r => subOf rev_target (compress r.investorName)
              else d
            else dfB
          let dfD :=
            if dfC.isEmpty && decide (2 ≤ parts.length) then
              let f_tok := (parts.headD []).map Char.toLower
              let l_tok := (parts.getLastD []).map Char.toLower
              fees.filter fun r =>
                subOf f_tok (lowerS r.investorName).data
                  && subOf l_tok (lowerS r.investorName).data
            else dfC
          dfD
      | none => df0
    else df0
  if df1.isEmpty then none
  else
    let df2 :=
      match subscription_code with
      | some sc =>
        let rhs_sub := lowerS (trimS sc)
        let sub := df1.filter fun r =>
          (lowerS (trimS r.subscriptionCode)).data == rhs_sub.data
        if sub.isEmpty then df1 else sub
      | none => df1
    (sortFeeRows df2).head?

/-- `_as_pct` (numeric cases; the string/empty/unparseable cells are
pre-coerced into the `Option`). -/
def asPct (x : Option ℚ) : Option ℚ :=
  match x with
  | none => none
  | some v => some (if 1 < v then v / 100 else v)

/-- `_norm_gross_net`: anything starting with `n` (case-insensitively,
stripped) is `net`, everything else `gross`. -/
def normGrossNet (x : Option String) : String :=
  let s := trimD ((x.getD "").data.map Char.toLower)
  match s with
  | c :: _ => if c == 'n' then "net" else "gross"
  | [] => "gross"

/-- `_class_from_fund`: `pro` substring ⇒ professional, else `retail`
substring ⇒ retail, else retail. -/
def classFromFund (fund : Option String) : String :=
  let s := (fund.getD "").data.map Char.toLower
  if subOf "pro".data s then "professional"
  else if subOf "retail".data s then "retail"
  else "retail"

/-- The default fee structure substituted by `resolve_payload` when no fee
row is found. -/
def defaultFeeRow (cust_ref full_name : String) : FeeRow :=
  { custRef := cust_ref
    investorName := full_name
    subscriptionCode := ⟨(full_name.data.filter fun c => !(c == ' ')) ++ "-EIS-1".data⟩
    fund := "Retail"
    grossNet := "Net"
    ccSetUpFeePct := some 0.015
    ccAmcPct := some 0.02
    ccCarryPct := some 0.20
    depositNum := none
    depositDate := none }

/-- The `investor` section of the shaped payload. -/
structure PayloadInvestor where
  custRef : String
  accountName : String
  salutation : String
  firstName : String
  lastName : String
  contactEmail : String
deriving DecidableEq, Repr

/-- The `fee_context` section of the shaped payload. -/
structure FeeContext where
  subscription_reference : String
  fund : String
  classification : String
  investment_type : String
  upfront_pct : Option ℚ
  amc_pct : Option ℚ
  performance_pct : Option ℚ
deriving DecidableEq, Repr

/-- The `company` section of the shaped payload. -/
structure PayloadCompany where
  companyName : String
  currentSharePrice : ℚ
  shareClass : Option String
deriving DecidableEq, Repr

/-- The shaped payload returned by `resolve_payload`. -/
structure ResolvedPayload where
  investor : PayloadInvestor
  fee_context : FeeContext
  company : PayloadCompany
  amount : ℚ
  using_default_rates : Bool
deriving DecidableEq, Repr

/-- `ExcelLocalThreeSheet.resolve_payload`: investor → fee row (defaults when
absent, with the `using_default_rates` flag) → company → shaped payload.
`Investor not found` / `Company not found` `ValueError`s are `Except.error`s,
and an ambiguity error from `find_investor_row` propagates. -/
def resolvePayload (fz : String → String → ℚ)
    (fzOne : String → List String → Option (String × ℚ))
    (investor_query company_query : String) (amount : ℚ)
    (subscription_code : Option String)
    (inv_rows : List InvRow) (fee_rows : List FeeRow) (co_rows : List CoRow) :
    Except ResolveErr ResolvedPayload :=
  match findInvestorRow fz investor_query inv_rows with
  | .error e => .error e
  | .ok none => .error (.investorNotFound investor_query)
  | .ok (some inv) =>
    let cust_ref := inv.custRef
    let full_name : String := ⟨trimD (trimD inv.firstName.data ++ ' ' :: trimD inv.lastName.data)⟩
    let fee? := findFeeRow fzOne cust_ref subscription_code (some full_name) fee_rows
    let using_default_rates := fee?.isNone
    let fee := fee?.getD (defaultFeeRow cust_ref full_name)
    match findCompanyRow fzOne company_query co_rows with
    | none => .error (.companyNotFound company_query)
    | some co =>
      let investment_type := normGrossNet (some fee.grossNet)
      let classification := classFromFund (some fee.fund)
      let sp_val := match co.currentSharePrice with
        | some v => v
        | none => 1   -- float(None) raises; the except-branch substitutes 1.0
      .ok
        { investor :=
            { custRef := inv.custRef
              accountName := inv.accountName
              salutation := if inv.salutation = "" then "Dear" else inv.salutation
              firstName := inv.firstName
              lastName := inv.lastName
              contactEmail :=
                if inv.contactEmail = "" then
                  (if inv.loginEmail = "" then "" else inv.loginEmail)
                else inv.contactEmail }
          fee_context :=
            { subscription_reference := fee.subscriptionCode
              fund := fee.fund
              classification := classification
              investment_type := investment_type
              upfront_pct := asPct fee.ccSetUpFeePct
              amc_pct := asPct fee.ccAmcPct
              performance_pct := asPct fee.ccCarryPct }
          company :=
            { companyName := co.companyName
              currentSharePrice := sp_val
              shareClass := co.shareClass }
          amount := amount
          using_default_rates := using_default_rates }

/-! ### C2, C3, C8 -/

/-- C2 (amended): for investor queries, when the key/exact tiers miss and the
compressed-containment tier yields more than one candidate, resolution raises
an ambiguity error (an `Except.error`, modelling the `ValueError`) carrying
the candidate names capped to a preview of 5 and never auto-selects; for
company queries the compressed-containment tier has no ambiguity guard and
auto-selects the first matching row. -/
theorem c2_amended_containment_ambiguity
    : (∀ (fz : String → String → ℚ) (q : String) (rows : List InvRow),
        invEmailHit (lowerS (trimS q)) rows = none →
        invRefHit (lowerS (trimS q)) rows = none →
        invCompExactHit (lowerS (trimS q)) rows = none →
        1 < (invContainMatches (lowerS (trimS q)) rows).length →
        findInvestorRow fz q rows
          = .error (.ambiguousContainment q
              (((invContainMatches (lowerS (trimS q)) rows).map fullName).take 5))
          ∧ (((invContainMatches (lowerS (trimS q)) rows).map fullName).take 5).length ≤ 5)
    ∧ (∀ (fzOne : String → List String → Option (String × ℚ)) (q : String)
          (cos : List CoRow) (r : CoRow) (rest : List CoRow),
        coExactHit (lowerS (trimS q)) cos = none →
        coContainHit (lowerS (trimS q)) cos = none →
        coNormHit q cos = none →
        coCompExactHit q cos = none →
        coCompContainMatches q cos = r :: rest →
        findCompanyRow fzOne q cos = some r) := by
  constructor
  · intro fz q rows h1 h2 h3 hLen
    refine ⟨?_, ?_⟩
    · simp only [findInvestorRow, h1, h2, h3]
      rw [if_pos hLen]
    · exact List.length_take_le 5 _
  · intro fzOne q cos r rest h1 h2 h3 h4 h5
    simp only [findCompanyRow, h1, h2, h3, h4, h5, List.head?_cons]

/-- First company row of the C2 examples. -/
def coAcmeOne : CoRow := ⟨"x acme one", none, "1", none⟩

/-- Second company row of the C2 examples. -/
def coAcmeTwo : CoRow := ⟨"y acme two", none, "2", none⟩

/-- C2 (counterexample): the company query `"ac me"` matches both rows at the
compressed-containment tier (both compress to a superstring of `acme`), yet
`find_company_row` silently returns the first row instead of an ambiguous
outcome. -/
theorem c2_counterexample_company_auto_select :
    (coCompContainMatches "ac me" [coAcmeOne, coAcmeTwo]).length = 2
    ∧ findCompanyRow (fun _ _ => none) "ac me" [coAcmeOne, coAcmeTwo]
        = some coAcmeOne := by
  constructor <;> decide

/-- Investor row `Ann Smith` of the C2 witness. -/
def invAnnSmith : InvRow := ⟨"CR1", "Smith Acc", "Mr", "Ann", "Smith", "a@x.com", ""⟩

/-- Investor row `Ann Smithson` of the C2 witness. -/
def invAnnSmithson : InvRow := ⟨"CR2", "Smithson Acc", "Ms", "Ann", "Smithson", "b@x.com", ""⟩

/-- C2 (witness): the amended theorem at a concrete two-candidate investor
query (error listing both candidates) and a concrete two-candidate company
query (first row auto-selected). -/
theorem c2_witness_containment_ambiguity :
    findInvestorRow (fun _ _ => 0) "nn Smi" [invAnnSmith, invAnnSmithson]
      = .error (.ambiguousContainment "nn Smi" ["Ann Smith", "Ann Smithson"])
    ∧ findCompanyRow (fun _ _ => none) "ac me" [coAcmeOne, coAcmeTwo]
        = some coAcmeOne := by
  constructor
  · have h := (c2_amended_containment_ambiguity.1 (fun _ _ => 0) "nn Smi"
      [invAnnSmith, invAnnSmithson] (by decide) (by decide) (by decide) (by decide)).1
    rw [h]; decide
  · exact c2_amended_containment_ambiguity.2 (fun _ _ => none) "ac me"
      [coAcmeOne, coAcmeTwo] coAcmeOne [coAcmeTwo]
      (by decide) (by decide) (by decide) (by decide) (by decide)

/-- Fee row of investor `Alan Fox`. -/
def alanFoxFeeRow : FeeRow :=
  ⟨"CR10", "Alan Fox", "AF-1", "Retail", "Net", none, none, none, none, none⟩

/-- Fee row of investor `Alan Hickford`. -/
def alanHickfordFeeRow : FeeRow :=
  ⟨"CR11", "Alan Hickford", "AH-1", "Retail", "Net", none, none, none, none, none⟩

/-- The two-investor fee table of the C3 scenario. -/
def c3FeeTable : List FeeRow := [alanFoxFeeRow, alanHickfordFeeRow]

/-- C3 (counterexample): with fee rows for `Alan Fox` and `Alan Hickford`
and no matching client reference, looking up `"Alan Fo"` does *not* return
`NotFound`: the compressed-containment fallback tier matches `Alan Fox`
(`alanfo` is a substring of `alanfox`) and returns his row. -/
theorem c3_counterexample_containment_matches_fox :
    findFeeRow (fun _ _ => none) "ZZZ" none (some "Alan Fo") c3FeeTable
      = some alanFoxFeeRow
    ∧ alanFoxFeeRow.investorName = "Alan Fox" := by
  constructor <;> decide

/-- C3 (amended): the fee-row lookup never consults the fuzzy scorer (its
result is identical under any two scorers — the source computes and discards
the rapidfuzz hit), `"Alan Fo"` resolves to Alan Fox's row via the
compressed-containment tier, and a name matching no
exact/containment/token tier (e.g. `"Alan Foster"`) yields `NotFound`. -/
theorem c3_amended_no_fuzzy_fee_lookup :
    (∀ (f1 f2 : String → List String → Option (String × ℚ)) (cust_ref : String)
        (sc nm : Option String) (fees : List FeeRow),
      findFeeRow f1 cust_ref sc nm fees = findFeeRow f2 cust_ref sc nm fees)
    ∧ findFeeRow (fun _ _ => none) "ZZZ" none (some "Alan Fo") c3FeeTable
        = some alanFoxFeeRow
    ∧ findFeeRow (fun _ _ => none) "ZZZ" none (some "Alan Foster") c3FeeTable
        = none :=
  ⟨fun _ _ _ _ _ _ => rfl, by decide, by decide⟩

/-- Investor row `Bob Stone` of the C8 counterexample. -/
def invBobStone : InvRow := ⟨"CR5", "", "", "Bob", "Stone", "", ""⟩

/-- Investor row `Bob Stonebridge` of the C8 counterexample. -/
def invBobStonebridge : InvRow := ⟨"CR6", "", "", "Bob", "Stonebridge", "", ""⟩

/-- C8 (counterexample): an ambiguous investor query is not returned as an
ordinary result — `find_investor_row` raises a `ValueError` (an
`Except.error` here), so `Ambiguous` is delivered as an exception. -/
theorem c8_counterexample_ambiguous_raises :
    findInvestorRow (fun _ _ => 0) "ob Stone" [invBobStone, invBobStonebridge]
      = .error (.ambiguousContainment "ob Stone" ["Bob Stone", "Bob Stonebridge"]) := by
  decide

/-- C8 (amended): `NotFound` from the row finders is an ordinary `None`
result, and a missing fee row is handled as a result (defaults substituted,
flagged via `using_default_rates`); but `resolve_payload` raises for an
unresolved investor or company, and an ambiguous investor match propagates
as a raised error. -/
theorem c8_amended_notfound_propagation
    : (∀ (fz : String → String → ℚ)
          (fzOne : String → List String → Option (String × ℚ))
          (invQ coQ : String) (amount : ℚ) (sc : Option String)
          (inv_rows : List InvRow) (fee_rows : List FeeRow) (co_rows : List CoRow),
        findInvestorRow fz invQ inv_rows = .ok none →
        resolvePayload fz fzOne invQ coQ amount sc inv_rows fee_rows co_rows
          = .error (.investorNotFound invQ))
    ∧ (∀ (fz : String → String → ℚ)
          (fzOne : String → List String → Option (String × ℚ))
          (invQ coQ : String) (amount : ℚ) (sc : Option String)
          (inv_rows : List InvRow) (fee_rows : List FeeRow) (co_rows : List CoRow)
          (e : ResolveErr),
        findInvestorRow fz invQ inv_rows = .error e →
        resolvePayload fz fzOne invQ coQ amount sc inv_rows fee_rows co_rows
          = .error e)
    ∧ (∀ (fz : String → String → ℚ)
          (fzOne : String → List String → Option (String × ℚ))
          (invQ coQ : String) (amount : ℚ) (sc : Option String)
          (inv_rows : List InvRow) (fee_rows : List FeeRow) (co_rows : List CoRow)
          (inv : InvRow),
        findInvestorRow fz invQ inv_rows = .ok (some inv) →
        findCompanyRow fzOne coQ co_rows = none →
        resolvePayload fz fzOne invQ coQ amount sc inv_rows fee_rows co_rows
          = .error (.companyNotFound coQ))
    ∧ (∀ (fz : String → String → ℚ)
          (fzOne : String → List String → Option (String × ℚ))
          (invQ coQ : String) (amount : ℚ) (sc : Option String)
          (inv_rows : List InvRow) (fee_rows : List FeeRow) (co_rows : List CoRow)
          (inv : InvRow) (co : CoRow),
        findInvestorRow fz invQ inv_rows = .ok (some inv) →
        findFeeRow fzOne inv.custRef sc
          (some ⟨trimD (trimD inv.firstName.data ++ ' ' :: trimD inv.lastName.data)⟩)
          fee_rows = none →
        findCompanyRow fzOne coQ co_rows = some co →
        ∃ p, resolvePayload fz fzOne invQ coQ amount sc inv_rows fee_rows co_rows
              = .ok p ∧ p.using_default_rates = true) := by
  refine ⟨?_, ?_, ?_, ?_⟩
  · intro fz fzOne invQ coQ amount sc inv_rows fee_rows co_rows h
    simp only [resolvePayload, h]
  · intro fz fzOne invQ coQ amount sc inv_rows fee_rows co_rows e h
    simp only [resolvePayload, h]
  · intro fz fzOne invQ coQ amount sc inv_rows fee_rows co_rows inv h1 h2
    simp only [resolvePayload, h1, h2]
  · intro fz fzOne invQ coQ amount sc inv_rows fee_rows co_rows inv co h1 h2 h3
    simp only [resolvePayload, h1, h2, h3, Option.isNone_none, Option.getD_none]
    exact ⟨_, rfl, rfl⟩

/-- Investor row of the C8 witness. -/
def invCarol : InvRow := ⟨"CR7", "Carol Acc", "Dr", "Carol", "Young", "c@x.com", ""⟩

/-- Company row of the C8 witness. -/
def coAcmeWidgets : CoRow := ⟨"Acme Widgets", none, "3", some "Ordinary"⟩

/-- C8 (witness): the amended propagation theorem at concrete data — an
unknown investor raises `investorNotFound`, while a resolved investor with
no fee row yields an ordinary `ok` payload flagged `using_default_rates`. -/
theorem c8_witness_notfound_propagation :
    resolvePayload (fun _ _ => 0) (fun _ _ => none) "Nobody" "Acme Widgets" 1000 none
      [] [] [] = .error (.investorNotFound "Nobody")
    ∧ ∃ p, resolvePayload (fun _ _ => 0) (fun _ _ => none) "Carol Young" "Acme Widgets"
          1000 none [invCarol] [] [coAcmeWidgets] = .ok p
        ∧ p.using_default_rates = true := by
  constructor
  · exact c8_amended_notfound_propagation.1 _ _ _ _ _ _ _ _ _ (by decide)
  · exact c8_amended_notfound_propagation.2.2.2 _ _ _ _ _ _ _ _ _ invCarol coAcmeWidgets
      (by decide) (by decide) (by decide)
